import Mathlib

/-!
# Kubernetes backend of selenoid: `service/kubernetes.go`

A shallow embedding of `Kubernetes.StartWithCancel` and `Kubernetes.Cancel`.

* The Kubernetes objects (`apiv1.Pod`, `apiv1.Service`, ...) are structures holding the
  fields the code reads or writes.
* The typed clientset (`k8s.io/client-go`) is an external collaborator: it is a parameter,
  `ClusterApi σ`, a record of state transformers over an arbitrary cluster state `σ`. Every
  call returns the Go pair `(object, error)`; a `nil` error is `none`.
* Every call the code issues to the cluster, and every `time.Sleep`, is recorded in a trace
  (`List Op`), in program order.
* The readiness loop `for !ready { ... }` has no bound in the source; it is run with fuel,
  and running out of fuel is the result `StartResult.diverged`.
* The objects a call returns are values, not pointers: the typed clients return a pointer
  to an object also together with an error (then to a zero-valued one), so no nil pointer
  is dereferenced at lines 109, 178-184.
* The calls of `log.Printf` have no effect on the result and are left out; the context is
  `context.Background()` throughout.
* `InMemory` is a small in-memory cluster (a test double in the manner of the fake
  clientset of client-go) on which the general theorems are instantiated.
-/

set_option linter.dupNamespace false

namespace Selenoid

/-! ## Kubernetes objects -/

/-- Go `error` values the cluster API returns (`nil` is `none : Option KErr`). -/
inductive KErr where
  | notFound (name : String)
  | alreadyExists (name : String)
  | other (msg : String)
  deriving DecidableEq, Repr

/-- The predicate `errors.IsNotFound`. -/
def KErr.isNotFound : KErr → Bool
  | .notFound _ => true
  | _ => false

/-- Type `apiv1.ContainerPort`. -/
structure ContainerPort where
  Name : String
  Protocol : String
  ContainerPort : Int
  deriving DecidableEq, Repr

/-- Type `apiv1.HTTPGetAction`; `Port` is built with `intstr.FromString`. -/
structure HTTPGetAction where
  Port : String
  Path : String
  deriving DecidableEq, Repr

/-- Type `apiv1.Probe` (its `ProbeHandler.HTTPGet`). -/
structure Probe where
  HTTPGet : HTTPGetAction
  deriving DecidableEq, Repr

/-- Type `apiv1.Container`. -/
structure Container where
  Name : String
  Image : String
  Ports : List ContainerPort
  Args : List String
  LivenessProbe : Option Probe
  ReadinessProbe : Option Probe
  deriving DecidableEq, Repr

/-- Type `apiv1.ContainerStatus`. -/
structure ContainerStatus where
  Ready : Bool
  deriving DecidableEq, Repr

/-- Type `metav1.ObjectMeta`. -/
structure ObjectMeta where
  Name : String
  Labels : List (String × String)
  UID : String
  deriving DecidableEq, Repr

/-- Type `apiv1.PodSpec`. -/
structure PodSpec where
  Containers : List Container
  deriving DecidableEq, Repr

/-- Type `apiv1.PodStatus`. -/
structure PodStatus where
  ContainerStatuses : List ContainerStatus
  deriving DecidableEq, Repr

/-- Type `apiv1.Pod`. -/
structure Pod where
  ObjectMeta : ObjectMeta
  Spec : PodSpec
  Status : PodStatus
  deriving DecidableEq, Repr

/-- Type `apiv1.ServicePort`. -/
structure ServicePort where
  Name : String
  Protocol : String
  Port : Int
  deriving DecidableEq, Repr

/-- Type `apiv1.ServiceSpec`. -/
structure ServiceSpec where
  Selector : List (String × String)
  Ports : List ServicePort
  ClusterIP : String
  deriving DecidableEq, Repr

/-- Type `apiv1.Service`. -/
structure Service where
  ObjectMeta : ObjectMeta
  Spec : ServiceSpec
  deriving DecidableEq, Repr

/-- The Go zero value `apiv1.Pod{}`. -/
def emptyPod : Pod :=
  { ObjectMeta := { Name := "", Labels := [], UID := "" },
    Spec := { Containers := [] },
    Status := { ContainerStatuses := [] } }

/-- The Go zero value `apiv1.Service{}`. -/
def emptyService : Service :=
  { ObjectMeta := { Name := "", Labels := [], UID := "" },
    Spec := { Selector := [], Ports := [], ClusterIP := "" } }

/-! ## The receiver `Kubernetes` and the result `StartedService` -/

/-- A Go `interface{}` value as far as the assertion `.(string)` can tell. -/
inductive ImageValue where
  | str (s : String)
  | nonString
  deriving DecidableEq, Repr

/-- The fields of `config.Browser` the backend reads: `k.Service.Image`, `k.Service.Path`. -/
structure Browser where
  Image : ImageValue
  Path : String
  deriving DecidableEq, Repr

/-- The field of the embedded `Environment` the backend reads. -/
structure Environment where
  KubernetesNamespace : String
  deriving DecidableEq, Repr

/-- Type `rest.Config`, only ever handed to `kubernetes.NewForConfig`. -/
structure RestConfig where
  Host : String
  deriving DecidableEq, Repr

/-- The receiver: `ServiceBase` (its `Service` and `RequestId`, a `uint64` that is only
printed), `Environment` and `Client`. -/
structure Kubernetes where
  Service : Browser
  RequestId : Nat
  Environment : Environment
  Client : RestConfig
  deriving DecidableEq, Repr

/-- Type `url.URL`. -/
structure URL where
  Scheme : String
  Host : String
  Path : String
  deriving DecidableEq, Repr

/-- Type `session.HostPort`. -/
structure HostPort where
  Selenium : String
  deriving DecidableEq, Repr

/-- Type `session.Container`; the Go map `Ports` is an association list. -/
structure SessionContainer where
  ID : String
  IPAddress : String
  Ports : List (String × String)
  deriving DecidableEq, Repr

/-- Type `StartedService`. The closure `Cancel` is kept as the two variables it captures
besides the receiver, `podUpdated.Name` and `svcUpdated.Name`. -/
structure StartedService where
  Url : URL
  Origin : String
  Container : SessionContainer
  HostPort : HostPort
  CancelPodName : String
  CancelServiceName : String
  deriving DecidableEq, Repr

/-! ## The cluster API and the trace of calls -/

/-- The typed clientset over a cluster state `σ`. The first argument of every call is the
namespace the client was obtained for (`CoreV1().Pods(ns)`, `CoreV1().Services(ns)`); the
number handed to the deletes is the grace period of `metav1.NewDeleteOptions`. -/
structure ClusterApi (σ : Type) where
  NewForConfig : RestConfig → Option KErr
  PodCreate : String → Pod → σ → (Pod × Option KErr) × σ
  PodGet : String → String → σ → (Pod × Option KErr) × σ
  PodDelete : String → String → Nat → σ → Option KErr × σ
  SvcCreate : String → Service → σ → (Service × Option KErr) × σ
  SvcGet : String → String → σ → (Service × Option KErr) × σ
  SvcDelete : String → String → Nat → σ → Option KErr × σ

/-- One entry of the trace: a call to the cluster, or a `time.Sleep` (in seconds). -/
inductive Op where
  | podCreate (ns : String) (pod : Pod)
  | podGet (ns name : String)
  | podDelete (ns name : String) (grace : Nat)
  | svcCreate (ns : String) (svc : Service)
  | svcGet (ns name : String)
  | svcDelete (ns name : String) (grace : Nat)
  | sleep (seconds : Nat)
  deriving DecidableEq, Repr

/-- Whether the entry is a call on the services client. -/
def Op.isServiceOp : Op → Bool
  | .svcCreate _ _ => true
  | .svcGet _ _ => true
  | .svcDelete _ _ _ => true
  | _ => false

/-- Whether the entry is a call to the cluster at all. -/
def Op.isClusterOp : Op → Bool
  | .sleep _ => false
  | _ => true

/-- Whether the entry is a delete. -/
def Op.isDelete : Op → Bool
  | .podDelete _ _ _ => true
  | .svcDelete _ _ _ => true
  | _ => false

/-- What a call of `StartWithCancel` comes to. -/
inductive StartResult where
  | diverged
  | panicked
  | failed (err : KErr)
  | started (s : StartedService)
  deriving DecidableEq, Repr

/-! ## `StartWithCancel` -/

/-- The five ports of the pod's container, lines 46-72. -/
def podPorts : List ContainerPort :=
  [ { Name := "browser", Protocol := "TCP", ContainerPort := 4444 },
    { Name := "vnc", Protocol := "TCP", ContainerPort := 5900 },
    { Name := "devtools", Protocol := "TCP", ContainerPort := 7070 },
    { Name := "fileserver", Protocol := "TCP", ContainerPort := 8080 },
    { Name := "clipboard", Protocol := "TCP", ContainerPort := 9090 } ]

/-- The pod definition of lines 34-98. -/
def buildPod (name reqID image path : String) : Pod :=
  { ObjectMeta := { Name := name, Labels := [("selenoid-request-id", reqID)], UID := "" },
    Spec :=
      { Containers :=
          [ { Name := "browser",
              Image := image,
              Ports := podPorts,
              Args := ["-session-attempt-timeout", "240s", "-service-startup-timeout", "240s"],
              LivenessProbe := some { HTTPGet := { Port := "browser", Path := path } },
              ReadinessProbe := some { HTTPGet := { Port := "browser", Path := path } } } ] },
    Status := { ContainerStatuses := [] } }

/-- The five ports of the service, lines 127-153. -/
def servicePorts : List ServicePort :=
  [ { Name := "browser", Protocol := "TCP", Port := 4444 },
    { Name := "vnc", Protocol := "TCP", Port := 5900 },
    { Name := "devtools", Protocol := "TCP", Port := 7070 },
    { Name := "fileserver", Protocol := "TCP", Port := 8080 },
    { Name := "clipboard", Protocol := "TCP", Port := 9090 } ]

/-- The service definition of lines 119-155. -/
def buildService (name reqID : String) : Service :=
  { ObjectMeta := { Name := name, Labels := [], UID := "" },
    Spec := { Selector := [("selenoid-request-id", reqID)], Ports := servicePorts,
              ClusterIP := "" } }

/-- The name of both objects: `fmt.Sprintf("selenoid-browser-%d", k.RequestId)`. -/
def objectName (k : Kubernetes) : String :=
  "selenoid-browser-" ++ Nat.repr k.RequestId

/-- The label value: `fmt.Sprintf("%d", k.RequestId)`. -/
def requestLabel (k : Kubernetes) : String :=
  Nat.repr k.RequestId

/-- The function `net.JoinHostPort`: a host holding a colon is taken for a literal IPv6
address and put in square brackets. -/
def JoinHostPort (host port : String) : String :=
  if host.toList.any (fun c => c == ':') then "[" ++ host ++ "]:" ++ port
  else host ++ ":" ++ port

/-- One pass of the inner `for _, status := range statuses`, starting from `ready = true`
(lines 108-114). -/
def scanStatuses (statuses : List ContainerStatus) : Bool :=
  statuses.foldl (fun ready status => if !status.Ready then false else ready) true

/-- The loop `for !ready { ... }` of lines 105-115 on the pod the Create call returned.
Arguments: fuel, the current value of `ready`, the pod, the trace so far. Result: whether
the loop was left, and the trace. -/
def readinessLoop : Nat → Bool → Pod → List Op → Bool × List Op
  | _, true, _, tr => (true, tr)
  | 0, false, _, tr => (false, tr)
  | fuel + 1, false, pod, tr =>
    readinessLoop fuel (scanStatuses pod.Status.ContainerStatuses) pod (tr ++ [Op.sleep 10])

/-- The `StartedService` assembled at lines 170-188 from the configured path, the object
name and the two objects fetched again. -/
def assemble (k : Kubernetes) (name : String) (podUpdated : Pod) (svcUpdated : Service) :
    StartedService :=
  let hp : HostPort := { Selenium := JoinHostPort (name ++ ".selenoid.svc.cluster.local") "4444" }
  { Url := { Scheme := "http", Host := hp.Selenium, Path := k.Service.Path },
    Origin := JoinHostPort (name ++ ".selenoid.svc.cluster.local") "4444",
    Container :=
      { ID := podUpdated.ObjectMeta.UID,
        IPAddress := svcUpdated.Spec.ClusterIP,
        Ports := [("4444", "4444")] },
    HostPort := hp,
    CancelPodName := podUpdated.ObjectMeta.Name,
    CancelServiceName := svcUpdated.ObjectMeta.Name }

/-- Lines 118-189: what follows the readiness loop. The error of the pod `Get` is
overwritten by the error of the service `Get` before it is looked at (lines 161-163). -/
def afterReady {σ : Type} (api : ClusterApi σ) (k : Kubernetes) (s : σ) (tr : List Op) :
    StartResult × σ × List Op :=
  let ns := k.Environment.KubernetesNamespace
  let name := objectName k
  let service := buildService name (requestLabel k)
  match api.SvcCreate ns service s with
  | ((_, some err), s2) => (StartResult.failed err, s2, tr ++ [Op.svcCreate ns service])
  | ((_, none), s2) =>
    match api.PodGet ns name s2 with
    | ((podUpdated, _), s3) =>
      match api.SvcGet ns name s3 with
      | ((_, some err), s4) =>
        (StartResult.failed err, s4,
          tr ++ [Op.svcCreate ns service, Op.podGet ns name, Op.svcGet ns name])
      | ((svcUpdated, none), s4) =>
        (StartResult.started (assemble k name podUpdated svcUpdated), s4,
          tr ++ [Op.svcCreate ns service, Op.podGet ns name, Op.svcGet ns name])

/-- The method `Kubernetes.StartWithCancel`, lines 25-190, run with `fuel` iterations of the
readiness loop at most, from the cluster state `s`. Result: what the call comes to, the
cluster state it leaves, and the trace of calls and sleeps. -/
def StartWithCancel {σ : Type} (api : ClusterApi σ) (k : Kubernetes) (fuel : Nat) (s : σ) :
    StartResult × σ × List Op :=
  match api.NewForConfig k.Client with
  | some err => (StartResult.failed err, s, [])
  | none =>
    let ns := k.Environment.KubernetesNamespace
    match k.Service.Image with
    | ImageValue.nonString => (StartResult.panicked, s, [])
    | ImageValue.str image =>
      let pod := buildPod (objectName k) (requestLabel k) image k.Service.Path
      match api.PodCreate ns pod s with
      | ((_, some err), s1) => (StartResult.failed err, s1, [Op.podCreate ns pod])
      | ((created, none), s1) =>
        match readinessLoop fuel false created [Op.podCreate ns pod] with
        | (false, tr) => (StartResult.diverged, s1, tr)
        | (true, tr) => afterReady api k s1 tr

/-! ## `Cancel` -/

/-- The method `Kubernetes.Cancel`, lines 192-207. The context is only handed on to the
client and `requestID` is not used by the body. Result: the returned error (`none` is
`nil`), the cluster state, and the trace of calls. -/
def Cancel {σ : Type} (api : ClusterApi σ) (k : Kubernetes) (requestID : Nat)
    (podName serviceName : String) (s : σ) : Option KErr × σ × List Op :=
  let _ := requestID
  match api.NewForConfig k.Client with
  | some err => (some err, s, [])
  | none =>
    let ns := k.Environment.KubernetesNamespace
    match api.PodDelete ns podName 60 s with
    | (some err, s1) => (some err, s1, [Op.podDelete ns podName 60])
    | (none, s1) =>
      match api.SvcDelete ns serviceName 60 s1 with
      | (some err, s2) =>
        (some err, s2, [Op.podDelete ns podName 60, Op.svcDelete ns serviceName 60])
      | (none, s2) =>
        (none, s2, [Op.podDelete ns podName 60, Op.svcDelete ns serviceName 60])

/-- The closure `Cancel` of the handle, lines 183-187: `k.Cancel` on the request and the two
captured names; its error is logged and dropped. Result: the cluster state and the trace. -/
def StartedService.runCancel {σ : Type} (api : ClusterApi σ) (k : Kubernetes)
    (h : StartedService) (s : σ) : σ × List Op :=
  (Cancel api k k.RequestId h.CancelPodName h.CancelServiceName s).2

/-! ## An in-memory cluster -/

/-- The state of the in-memory cluster: the stored objects with their namespaces, the
number of coming status reports in which the pod is not ready yet, whether such a report
lists the containers (as not ready) or lists no container at all, and errors to be returned
by the service `Create`, the pod `Get` and the pod `Create` whatever the store holds. -/
structure InMemory where
  pods : List (String × Pod)
  services : List (String × Service)
  notReadyReports : Nat
  pendingListed : Bool
  svcCreateErr : Option KErr
  podGetErr : Option KErr
  podCreateErr : Option KErr
  deriving DecidableEq, Repr

namespace InMemory

/-- The status the cluster reports for a pod at this moment: once no "not ready" report is
left, one ready entry per container; before that, one entry per container that is not
ready, or no entry at all. -/
def report (c : InMemory) (pod : Pod) : Pod :=
  { pod with Status :=
      { ContainerStatuses :=
          if c.notReadyReports = 0 then pod.Spec.Containers.map (fun _ => { Ready := true })
          else if c.pendingListed then pod.Spec.Containers.map (fun _ => { Ready := false })
          else [] } }

/-- Whether a pod of that name is stored in the namespace. -/
def hasPod (c : InMemory) (ns name : String) : Bool :=
  c.pods.any (fun e => e.1 == ns && e.2.ObjectMeta.Name == name)

/-- Whether a service of that name is stored in the namespace. -/
def hasService (c : InMemory) (ns name : String) : Bool :=
  c.services.any (fun e => e.1 == ns && e.2.ObjectMeta.Name == name)

/-- Create a pod: rejected when the name is taken; the stored pod gets a UID, and the
response carries the status reported at this moment. -/
def podCreate (ns : String) (pod : Pod) (c : InMemory) : (Pod × Option KErr) × InMemory :=
  match c.podCreateErr with
  | some err => ((emptyPod, some err), c)
  | none =>
    if c.hasPod ns pod.ObjectMeta.Name then
      ((emptyPod, some (KErr.alreadyExists pod.ObjectMeta.Name)), c)
    else
      let stored : Pod :=
        { pod with ObjectMeta := { pod.ObjectMeta with UID := "uid-" ++ pod.ObjectMeta.Name } }
      ((c.report stored, none),
        { c with pods := c.pods ++ [(ns, stored)], notReadyReports := c.notReadyReports - 1 })

/-- Get a pod; on an error the object returned is the zero value. -/
def podGet (ns name : String) (c : InMemory) : (Pod × Option KErr) × InMemory :=
  match c.podGetErr with
  | some err => ((emptyPod, some err), c)
  | none =>
    match c.pods.find? (fun e => e.1 == ns && e.2.ObjectMeta.Name == name) with
    | none => ((emptyPod, some (KErr.notFound name)), c)
    | some e => ((c.report e.2, none), { c with notReadyReports := c.notReadyReports - 1 })

/-- Delete a pod; "not found" when it is not stored. -/
def podDelete (ns name : String) (_grace : Nat) (c : InMemory) : Option KErr × InMemory :=
  if c.hasPod ns name then
    (none, { c with pods := c.pods.filter (fun e => !(e.1 == ns && e.2.ObjectMeta.Name == name)) })
  else (some (KErr.notFound name), c)

/-- Create a service: rejected when the name is taken; the stored service gets a cluster
address. -/
def svcCreate (ns : String) (svc : Service) (c : InMemory) :
    (Service × Option KErr) × InMemory :=
  match c.svcCreateErr with
  | some err => ((emptyService, some err), c)
  | none =>
    if c.hasService ns svc.ObjectMeta.Name then
      ((emptyService, some (KErr.alreadyExists svc.ObjectMeta.Name)), c)
    else
      let stored : Service :=
        { ObjectMeta := { svc.ObjectMeta with UID := "uid-" ++ svc.ObjectMeta.Name },
          Spec := { svc.Spec with ClusterIP := "10.96.0.10" } }
      ((stored, none), { c with services := c.services ++ [(ns, stored)] })

/-- Get a service; on an error the object returned is the zero value. -/
def svcGet (ns name : String) (c : InMemory) : (Service × Option KErr) × InMemory :=
  match c.services.find? (fun e => e.1 == ns && e.2.ObjectMeta.Name == name) with
  | none => ((emptyService, some (KErr.notFound name)), c)
  | some e => ((e.2, none), c)

/-- Delete a service; "not found" when it is not stored. -/
def svcDelete (ns name : String) (_grace : Nat) (c : InMemory) : Option KErr × InMemory :=
  if c.hasService ns name then
    (none,
      { c with
        services := c.services.filter (fun e => !(e.1 == ns && e.2.ObjectMeta.Name == name)) })
  else (some (KErr.notFound name), c)

/-- The clientset of the in-memory cluster; building it never fails. -/
def api : ClusterApi InMemory :=
  { NewForConfig := fun _ => none,
    PodCreate := podCreate,
    PodGet := podGet,
    PodDelete := podDelete,
    SvcCreate := svcCreate,
    SvcGet := svcGet,
    SvcDelete := svcDelete }

/-- The empty cluster whose status reports say "ready" from the start. -/
def empty : InMemory :=
  { pods := [], services := [], notReadyReports := 0, pendingListed := true,
    svcCreateErr := none, podGetErr := none, podCreateErr := none }

end InMemory

/-- A receiver used for the concrete runs: request 42 in namespace `ns`. -/
def k42 : Kubernetes :=
  { Service := { Image := ImageValue.str "selenoid/chrome:latest", Path := "/wd/hub" },
    RequestId := 42,
    Environment := { KubernetesNamespace := "ns" },
    Client := { Host := "https://cluster.local" } }

/-- Whether the entry is a `Get`. -/
def Op.isGet : Op → Bool
  | .podGet _ _ => true
  | .svcGet _ _ => true
  | _ => false

/-- The name of the two objects of request 42. -/
def name42 : String := "selenoid-browser-42"

/-- The pod definition `StartWithCancel` builds for `k42`. -/
def pod42 : Pod := buildPod name42 "42" "selenoid/chrome:latest" "/wd/hub"

/-- The service definition `StartWithCancel` builds for `k42`. -/
def service42 : Service := buildService name42 "42"

namespace InMemory

/-- An empty cluster whose first status report says "not ready" and whose later ones say
"ready". -/
def notReadyOnce : InMemory := { empty with notReadyReports := 1 }

/-- An empty cluster whose first three status reports list no container, the pod being not
ready yet, and whose later ones list the container as ready. -/
def pendingUnlisted : InMemory := { empty with notReadyReports := 3, pendingListed := false }

/-- An empty cluster that rejects every service `Create`. -/
def svcCreateDenied : InMemory := { empty with svcCreateErr := some (KErr.other "forbidden") }

/-- An empty cluster on which every pod `Get` fails. -/
def podGetFailing : InMemory := { empty with podGetErr := some (KErr.other "etcd timeout") }

/-- An empty cluster that rejects every pod `Create`. -/
def podCreateDenied : InMemory :=
  { empty with podCreateErr := some (KErr.other "quota exceeded") }

/-- The cluster after a successful `StartWithCancel` for `k42`: pod and service exist. -/
def bothCreated : InMemory := (StartWithCancel api k42 1 empty).2.1

/-- The cluster after a first `Cancel` of that session. -/
def afterCancel : InMemory := (Cancel api k42 42 name42 name42 bothCreated).2.1

/-- The cluster on which the pod of request 42 was created and the service never was. -/
def podOnly : InMemory := (podCreate "ns" pod42 empty).2

end InMemory

/-- The handle of the successful run for request 42 on the in-memory cluster. -/
def handle42 : StartedService :=
  { Url := { Scheme := "http",
             Host := "selenoid-browser-42.selenoid.svc.cluster.local:4444",
             Path := "/wd/hub" },
    Origin := "selenoid-browser-42.selenoid.svc.cluster.local:4444",
    Container := { ID := "uid-selenoid-browser-42", IPAddress := "10.96.0.10",
                   Ports := [("4444", "4444")] },
    HostPort := { Selenium := "selenoid-browser-42.selenoid.svc.cluster.local:4444" },
    CancelPodName := "selenoid-browser-42",
    CancelServiceName := "selenoid-browser-42" }

/-! ## The readiness loop -/

/-- The inner scan from an arbitrary starting value of `ready`. -/
theorem foldl_scan_eq (statuses : List ContainerStatus) (acc : Bool) :
    statuses.foldl (fun ready status => if !status.Ready then false else ready) acc
      = (acc && statuses.all (fun st => st.Ready)) := by
  induction statuses generalizing acc with
  | nil => simp
  | cons st rest ih =>
    simp only [List.foldl_cons, List.all_cons, ih]
    cases acc <;> cases st.Ready <;> simp

/-- One scan leaves `ready` true exactly when every listed container is ready. -/
theorem scanStatuses_eq_all (statuses : List ContainerStatus) :
    scanStatuses statuses = statuses.all (fun st => st.Ready) := by
  unfold scanStatuses
  rw [foldl_scan_eq]
  simp

/-- Entered with `ready` true, the loop is left at once. -/
theorem readinessLoop_true (fuel : Nat) (pod : Pod) (tr : List Op) :
    readinessLoop fuel true pod tr = (true, tr) := by
  cases fuel <;> rfl

/-- When every listed container of the pod is ready, the loop is left after one iteration,
that is, one sleep of ten seconds. -/
theorem readinessLoop_ready (fuel : Nat) (pod : Pod) (tr : List Op)
    (h : pod.Status.ContainerStatuses.all (fun st => st.Ready) = true) :
    readinessLoop (fuel + 1) false pod tr = (true, tr ++ [Op.sleep 10]) := by
  rw [readinessLoop, scanStatuses_eq_all, h, readinessLoop_true]

/-- When some listed container of the pod is not ready, the loop is never left: whatever
the fuel, it is all spent on sleeps. -/
theorem readinessLoop_stuck (fuel : Nat) (pod : Pod) (tr : List Op)
    (h : pod.Status.ContainerStatuses.all (fun st => st.Ready) = false) :
    readinessLoop fuel false pod tr = (false, tr ++ List.replicate fuel (Op.sleep 10)) := by
  induction fuel generalizing tr with
  | zero => simp [readinessLoop]
  | succ n ih =>
    rw [readinessLoop, scanStatuses_eq_all, h, ih, List.replicate_succ]
    simp

/-- A loop that was left has run exactly one iteration on a pod all of whose listed
containers are ready. -/
theorem readinessLoop_exit (fuel : Nat) (pod : Pod) (tr tr2 : List Op)
    (h : readinessLoop fuel false pod tr = (true, tr2)) :
    pod.Status.ContainerStatuses.all (fun st => st.Ready) = true ∧ tr2 = tr ++ [Op.sleep 10] := by
  cases hall : pod.Status.ContainerStatuses.all (fun st => st.Ready) with
  | false =>
    rw [readinessLoop_stuck fuel pod tr hall] at h
    simp at h
  | true =>
    cases fuel with
    | zero => simp [readinessLoop] at h
    | succ n =>
      rw [readinessLoop_ready n pod tr hall] at h
      simp at h
      exact ⟨rfl, h.symm⟩

/-- What follows the readiness loop when the service `Create` returns an error. -/
theorem afterReady_create_err {σ : Type} (api : ClusterApi σ) (k : Kubernetes) (s s2 : σ)
    (tr : List Op) (x : Service) (err : KErr)
    (h : api.SvcCreate k.Environment.KubernetesNamespace
        (buildService (objectName k) (requestLabel k)) s = ((x, some err), s2)) :
    afterReady api k s tr
      = (StartResult.failed err, s2,
          tr ++ [Op.svcCreate k.Environment.KubernetesNamespace
                  (buildService (objectName k) (requestLabel k))]) := by
  simp only [afterReady, h]

/-- What follows the readiness loop when the service `Create` succeeds and the service `Get`
returns an error. -/
theorem afterReady_get_err {σ : Type} (api : ClusterApi σ) (k : Kubernetes) (s s2 s3 s4 : σ)
    (tr : List Op) (x y : Service) (p : Pod) (pe : Option KErr) (err : KErr)
    (h : api.SvcCreate k.Environment.KubernetesNamespace
        (buildService (objectName k) (requestLabel k)) s = ((x, none), s2))
    (hp : api.PodGet k.Environment.KubernetesNamespace (objectName k) s2 = ((p, pe), s3))
    (hs : api.SvcGet k.Environment.KubernetesNamespace (objectName k) s3 = ((y, some err), s4)) :
    afterReady api k s tr
      = (StartResult.failed err, s4,
          tr ++ [Op.svcCreate k.Environment.KubernetesNamespace
                  (buildService (objectName k) (requestLabel k)),
                Op.podGet k.Environment.KubernetesNamespace (objectName k),
                Op.svcGet k.Environment.KubernetesNamespace (objectName k)]) := by
  simp only [afterReady, h, hp, hs]

/-- What follows the readiness loop when the service `Create` and the service `Get` succeed:
a handle is returned whatever the pod `Get` returned as its error. -/
theorem afterReady_ok {σ : Type} (api : ClusterApi σ) (k : Kubernetes) (s s2 s3 s4 : σ)
    (tr : List Op) (x y : Service) (p : Pod) (pe : Option KErr)
    (h : api.SvcCreate k.Environment.KubernetesNamespace
        (buildService (objectName k) (requestLabel k)) s = ((x, none), s2))
    (hp : api.PodGet k.Environment.KubernetesNamespace (objectName k) s2 = ((p, pe), s3))
    (hs : api.SvcGet k.Environment.KubernetesNamespace (objectName k) s3 = ((y, none), s4)) :
    afterReady api k s tr
      = (StartResult.started (assemble k (objectName k) p y), s4,
          tr ++ [Op.svcCreate k.Environment.KubernetesNamespace
                  (buildService (objectName k) (requestLabel k)),
                Op.podGet k.Environment.KubernetesNamespace (objectName k),
                Op.svcGet k.Environment.KubernetesNamespace (objectName k)]) := by
  simp only [afterReady, h, hp, hs]

/-- The three ways what follows the readiness loop can end. -/
theorem afterReady_cases {σ : Type} (api : ClusterApi σ) (k : Kubernetes) (s : σ)
    (tr : List Op) :
    (∃ err s2, afterReady api k s tr
        = (StartResult.failed err, s2,
            tr ++ [Op.svcCreate k.Environment.KubernetesNamespace
                    (buildService (objectName k) (requestLabel k))]))
    ∨ (∃ err s4, afterReady api k s tr
        = (StartResult.failed err, s4,
            tr ++ [Op.svcCreate k.Environment.KubernetesNamespace
                    (buildService (objectName k) (requestLabel k)),
                  Op.podGet k.Environment.KubernetesNamespace (objectName k),
                  Op.svcGet k.Environment.KubernetesNamespace (objectName k)]))
    ∨ (∃ p y s4, afterReady api k s tr
        = (StartResult.started (assemble k (objectName k) p y), s4,
            tr ++ [Op.svcCreate k.Environment.KubernetesNamespace
                    (buildService (objectName k) (requestLabel k)),
                  Op.podGet k.Environment.KubernetesNamespace (objectName k),
                  Op.svcGet k.Environment.KubernetesNamespace (objectName k)])) := by
  rcases h : api.SvcCreate k.Environment.KubernetesNamespace
      (buildService (objectName k) (requestLabel k)) s with ⟨⟨x, e⟩, s2⟩
  cases e with
  | some err => exact Or.inl ⟨err, s2, afterReady_create_err api k s s2 tr x err h⟩
  | none =>
    rcases hp : api.PodGet k.Environment.KubernetesNamespace (objectName k) s2 with ⟨⟨p, pe⟩, s3⟩
    rcases hs : api.SvcGet k.Environment.KubernetesNamespace (objectName k) s3 with ⟨⟨y, e2⟩, s4⟩
    cases e2 with
    | some err =>
      exact Or.inr (Or.inl ⟨err, s4, afterReady_get_err api k s s2 s3 s4 tr x y p pe err h hp hs⟩)
    | none =>
      exact Or.inr (Or.inr ⟨p, y, s4, afterReady_ok api k s s2 s3 s4 tr x y p pe h hp hs⟩)

/-- What follows the readiness loop ends in an error or in a handle. -/
theorem afterReady_fst {σ : Type} (api : ClusterApi σ) (k : Kubernetes) (s : σ) (tr : List Op) :
    (afterReady api k s tr).1 ≠ StartResult.diverged
      ∧ (afterReady api k s tr).1 ≠ StartResult.panicked := by
  rcases afterReady_cases api k s tr with ⟨e, s2, h⟩ | ⟨e, s2, h⟩ | ⟨p, y, s2, h⟩ <;>
    rw [h] <;> simp

/-- The run of `StartWithCancel` once the clientset is built, the image is a string and the
pod was created, on a pod all of whose listed containers are ready. -/
theorem StartWithCancel_ready {σ : Type} (api : ClusterApi σ) (k : Kubernetes) (image : String)
    (s s1 : σ) (created : Pod) (fuel : Nat)
    (hcfg : api.NewForConfig k.Client = none)
    (himg : k.Service.Image = ImageValue.str image)
    (hcreate : api.PodCreate k.Environment.KubernetesNamespace
        (buildPod (objectName k) (requestLabel k) image k.Service.Path) s = ((created, none), s1))
    (hall : created.Status.ContainerStatuses.all (fun st => st.Ready) = true) :
    StartWithCancel api k (fuel + 1) s
      = afterReady api k s1
          [Op.podCreate k.Environment.KubernetesNamespace
              (buildPod (objectName k) (requestLabel k) image k.Service.Path),
            Op.sleep 10] := by
  simp only [StartWithCancel, hcfg, himg, hcreate, readinessLoop_ready fuel created _ hall]
  rfl

/-- The run of `StartWithCancel` once the clientset is built, the image is a string and the
pod was created, on a pod one of whose listed containers is not ready. -/
theorem StartWithCancel_stuck {σ : Type} (api : ClusterApi σ) (k : Kubernetes) (image : String)
    (s s1 : σ) (created : Pod) (fuel : Nat)
    (hcfg : api.NewForConfig k.Client = none)
    (himg : k.Service.Image = ImageValue.str image)
    (hcreate : api.PodCreate k.Environment.KubernetesNamespace
        (buildPod (objectName k) (requestLabel k) image k.Service.Path) s = ((created, none), s1))
    (hall : created.Status.ContainerStatuses.all (fun st => st.Ready) = false) :
    StartWithCancel api k fuel s
      = (StartResult.diverged, s1,
          Op.podCreate k.Environment.KubernetesNamespace
              (buildPod (objectName k) (requestLabel k) image k.Service.Path)
            :: List.replicate fuel (Op.sleep 10)) := by
  simp only [StartWithCancel, hcfg, himg, hcreate, readinessLoop_stuck fuel created _ hall]
  rfl

/-! ## `Cancel` -/

/-- The run of `Cancel` when the pod delete returns an error. -/
theorem Cancel_pod_err {σ : Type} (api : ClusterApi σ) (k : Kubernetes) (requestID : Nat)
    (podName serviceName : String) (s s1 : σ) (err : KErr)
    (hcfg : api.NewForConfig k.Client = none)
    (hpod : api.PodDelete k.Environment.KubernetesNamespace podName 60 s = (some err, s1)) :
    Cancel api k requestID podName serviceName s
      = (some err, s1, [Op.podDelete k.Environment.KubernetesNamespace podName 60]) := by
  simp only [Cancel, hcfg, hpod]

/-- The run of `Cancel` when the pod delete succeeds. -/
theorem Cancel_pod_ok {σ : Type} (api : ClusterApi σ) (k : Kubernetes) (requestID : Nat)
    (podName serviceName : String) (s s1 s2 : σ) (e : Option KErr)
    (hcfg : api.NewForConfig k.Client = none)
    (hpod : api.PodDelete k.Environment.KubernetesNamespace podName 60 s = (none, s1))
    (hsvc : api.SvcDelete k.Environment.KubernetesNamespace serviceName 60 s1 = (e, s2)) :
    Cancel api k requestID podName serviceName s
      = (e, s2, [Op.podDelete k.Environment.KubernetesNamespace podName 60,
                  Op.svcDelete k.Environment.KubernetesNamespace serviceName 60]) := by
  cases e <;> simp only [Cancel, hcfg, hpod, hsvc]

/-- C1, the claim as stated fails: on the in-memory cluster a first `Cancel` of the session
of request 42 deletes both objects and returns nil; then (a) the pod delete reports "not
found" and a second `Cancel` with the same names returns that "not found" error; and (b) on
the cluster holding the pod but no service the pod delete succeeds, the service delete
reports "not found", and `Cancel` returns that "not found" error. -/
theorem cancel_not_found_counterexample :
    (Cancel InMemory.api k42 42 name42 name42 InMemory.bothCreated).1 = none
    ∧ InMemory.afterCancel.pods = [] ∧ InMemory.afterCancel.services = []
    ∧ (InMemory.podDelete "ns" name42 60 InMemory.afterCancel).1 = some (KErr.notFound name42)
    ∧ (Cancel InMemory.api k42 42 name42 name42 InMemory.afterCancel).1
        = some (KErr.notFound name42)
    ∧ (InMemory.podDelete "ns" name42 60 InMemory.podOnly).1 = none
    ∧ (InMemory.svcDelete "ns" name42 60
          (InMemory.podDelete "ns" name42 60 InMemory.podOnly).2).1
        = some (KErr.notFound name42)
    ∧ (Cancel InMemory.api k42 42 name42 name42 InMemory.podOnly).1
        = some (KErr.notFound name42) := by
  decide

/-- C1, amended: once the clientset is built, `Cancel` returns nil exactly when the pod
delete and then the service delete both return nil; an error returned by the pod delete, or
by the service delete after a successful pod delete, "not found" included, is what `Cancel`
returns. -/
theorem cancel_nil_iff_both_deletes_succeed {σ : Type} (api : ClusterApi σ) (k : Kubernetes)
    (requestID : Nat) (podName serviceName : String) (s : σ)
    (hcfg : api.NewForConfig k.Client = none) :
    ((Cancel api k requestID podName serviceName s).1 = none
        ↔ (api.PodDelete k.Environment.KubernetesNamespace podName 60 s).1 = none
          ∧ (api.SvcDelete k.Environment.KubernetesNamespace serviceName 60
              (api.PodDelete k.Environment.KubernetesNamespace podName 60 s).2).1 = none)
    ∧ (∀ err, (api.PodDelete k.Environment.KubernetesNamespace podName 60 s).1 = some err →
        (Cancel api k requestID podName serviceName s).1 = some err)
    ∧ (∀ err, (api.PodDelete k.Environment.KubernetesNamespace podName 60 s).1 = none →
        (api.SvcDelete k.Environment.KubernetesNamespace serviceName 60
          (api.PodDelete k.Environment.KubernetesNamespace podName 60 s).2).1 = some err →
        (Cancel api k requestID podName serviceName s).1 = some err) := by
  rcases hpod : api.PodDelete k.Environment.KubernetesNamespace podName 60 s with ⟨e1, s1⟩
  cases e1 with
  | some err1 =>
    rw [Cancel_pod_err api k requestID podName serviceName s s1 err1 hcfg hpod]
    simp
  | none =>
    rcases hsvc : api.SvcDelete k.Environment.KubernetesNamespace serviceName 60 s1 with ⟨e2, s2⟩
    rw [Cancel_pod_ok api k requestID podName serviceName s s1 s2 e2 hcfg hpod hsvc]
    simp [hsvc]

/-- C1, amended, on the in-memory cluster holding the pod of request 42 and no service:
`Cancel` returns the "not found" of the service delete. -/
theorem cancel_nil_iff_both_deletes_succeed_witness :
    InMemory.api.NewForConfig k42.Client = none
    ∧ (Cancel InMemory.api k42 42 name42 name42 InMemory.podOnly).1
        = some (KErr.notFound name42) :=
  ⟨rfl,
    (cancel_nil_iff_both_deletes_succeed InMemory.api k42 42 name42 name42 InMemory.podOnly
      rfl).2.2 (KErr.notFound name42) (by decide) (by decide)⟩

/-- C9: once the clientset is built, `Cancel` issues the pod delete first; when the pod
delete returns an error (any error, "not found" included) `Cancel` returns exactly that
error, the pod delete is the only call issued, and the cluster is left as the pod delete left
it, so that whatever the pod delete leaves untouched (the services) is untouched; the
service delete is issued if and only if the pod delete returned nil; and when the pod delete
returned nil, the service delete is run on the cluster the pod delete left, `Cancel` returns
what the service delete returned, the cluster is left as the service delete left it, and the
calls issued are the pod delete followed by the service delete. -/
theorem cancel_stops_at_first_failing_delete {σ : Type} (api : ClusterApi σ) (k : Kubernetes)
    (requestID : Nat) (podName serviceName : String) (s : σ)
    (hcfg : api.NewForConfig k.Client = none) :
    (Cancel api k requestID podName serviceName s).2.2.head?
        = some (Op.podDelete k.Environment.KubernetesNamespace podName 60)
    ∧ (∀ err, (api.PodDelete k.Environment.KubernetesNamespace podName 60 s).1 = some err →
        Cancel api k requestID podName serviceName s
          = (some err, (api.PodDelete k.Environment.KubernetesNamespace podName 60 s).2,
              [Op.podDelete k.Environment.KubernetesNamespace podName 60]))
    ∧ (∀ (α : Type) (obs : σ → α) (err : KErr),
        (api.PodDelete k.Environment.KubernetesNamespace podName 60 s).1 = some err →
        obs (api.PodDelete k.Environment.KubernetesNamespace podName 60 s).2 = obs s →
        obs (Cancel api k requestID podName serviceName s).2.1 = obs s)
    ∧ (Op.svcDelete k.Environment.KubernetesNamespace serviceName 60
          ∈ (Cancel api k requestID podName serviceName s).2.2
        ↔ (api.PodDelete k.Environment.KubernetesNamespace podName 60 s).1 = none)
    ∧ ((Cancel api k requestID podName serviceName s).2.2.any Op.isServiceOp = true
        ↔ (api.PodDelete k.Environment.KubernetesNamespace podName 60 s).1 = none)
    ∧ ((api.PodDelete k.Environment.KubernetesNamespace podName 60 s).1 = none →
        Cancel api k requestID podName serviceName s
          = ((api.SvcDelete k.Environment.KubernetesNamespace serviceName 60
                (api.PodDelete k.Environment.KubernetesNamespace podName 60 s).2).1,
              (api.SvcDelete k.Environment.KubernetesNamespace serviceName 60
                (api.PodDelete k.Environment.KubernetesNamespace podName 60 s).2).2,
              [Op.podDelete k.Environment.KubernetesNamespace podName 60,
                Op.svcDelete k.Environment.KubernetesNamespace serviceName 60])) := by
  rcases hpod : api.PodDelete k.Environment.KubernetesNamespace podName 60 s with ⟨e1, s1⟩
  cases e1 with
  | some err1 =>
    rw [Cancel_pod_err api k requestID podName serviceName s s1 err1 hcfg hpod]
    simp [Op.isServiceOp]
  | none =>
    rcases hsvc : api.SvcDelete k.Environment.KubernetesNamespace serviceName 60 s1 with ⟨e2, s2⟩
    rw [Cancel_pod_ok api k requestID podName serviceName s s1 s2 e2 hcfg hpod hsvc]
    simp [Op.isServiceOp, hsvc]

/-- C9 on the in-memory cluster after a first `Cancel`: the pod delete reports "not found",
`Cancel` returns it, only the pod delete is issued and the services are as before; and on
the cluster holding both objects the pod delete succeeds, the service delete is run on the
cluster it left, and `Cancel` returns nil and leaves neither object. -/
theorem cancel_stops_at_first_failing_delete_witness :
    InMemory.api.NewForConfig k42.Client = none
    ∧ Cancel InMemory.api k42 42 name42 name42 InMemory.afterCancel
        = (some (KErr.notFound name42),
            (InMemory.podDelete "ns" name42 60 InMemory.afterCancel).2,
            [Op.podDelete "ns" name42 60])
    ∧ (InMemory.podDelete "ns" name42 60 InMemory.afterCancel).2.services
        = InMemory.afterCancel.services
    ∧ Cancel InMemory.api k42 42 name42 name42 InMemory.bothCreated
        = ((InMemory.svcDelete "ns" name42 60
              (InMemory.podDelete "ns" name42 60 InMemory.bothCreated).2).1,
            (InMemory.svcDelete "ns" name42 60
              (InMemory.podDelete "ns" name42 60 InMemory.bothCreated).2).2,
            [Op.podDelete "ns" name42 60, Op.svcDelete "ns" name42 60])
    ∧ (InMemory.svcDelete "ns" name42 60
          (InMemory.podDelete "ns" name42 60 InMemory.bothCreated).2).1 = none
    ∧ (InMemory.svcDelete "ns" name42 60
          (InMemory.podDelete "ns" name42 60 InMemory.bothCreated).2).2.services = []
    ∧ (InMemory.svcDelete "ns" name42 60
          (InMemory.podDelete "ns" name42 60 InMemory.bothCreated).2).2.pods = [] :=
  ⟨rfl,
    (cancel_stops_at_first_failing_delete InMemory.api k42 42 name42 name42
      InMemory.afterCancel rfl).2.1 (KErr.notFound name42) (by decide),
    by decide,
    (cancel_stops_at_first_failing_delete InMemory.api k42 42 name42 name42
      InMemory.bothCreated rfl).2.2.2.2.2 (by decide),
    by decide, by decide, by decide⟩

/-! ## `StartWithCancel`: the failure paths -/

/-- The run of `StartWithCancel` when the pod `Create` returns an error. -/
theorem StartWithCancel_create_err {σ : Type} (api : ClusterApi σ) (k : Kubernetes)
    (image : String) (s s1 : σ) (created : Pod) (err : KErr) (fuel : Nat)
    (hcfg : api.NewForConfig k.Client = none)
    (himg : k.Service.Image = ImageValue.str image)
    (hcreate : api.PodCreate k.Environment.KubernetesNamespace
        (buildPod (objectName k) (requestLabel k) image k.Service.Path) s
          = ((created, some err), s1)) :
    StartWithCancel api k fuel s
      = (StartResult.failed err, s1,
          [Op.podCreate k.Environment.KubernetesNamespace
            (buildPod (objectName k) (requestLabel k) image k.Service.Path)]) := by
  simp only [StartWithCancel, hcfg, himg, hcreate]

/-- C3: when the clientset is built and the pod `Create` returns an error, `StartWithCancel`
returns that error and no handle, whatever the fuel; the pod `Create` is the only call it
issued (no service call, no get, no delete), and the cluster is left as the failed `Create`
left it, so that whatever the failed `Create` leaves untouched (the services) is untouched. -/
theorem start_pod_create_error_returns_immediately {σ : Type} (api : ClusterApi σ)
    (k : Kubernetes) (image : String) (s s1 : σ) (created : Pod) (err : KErr) (fuel : Nat)
    (hcfg : api.NewForConfig k.Client = none)
    (himg : k.Service.Image = ImageValue.str image)
    (hcreate : api.PodCreate k.Environment.KubernetesNamespace
        (buildPod (objectName k) (requestLabel k) image k.Service.Path) s
          = ((created, some err), s1)) :
    StartWithCancel api k fuel s
        = (StartResult.failed err, s1,
            [Op.podCreate k.Environment.KubernetesNamespace
              (buildPod (objectName k) (requestLabel k) image k.Service.Path)])
    ∧ (∀ op ∈ (StartWithCancel api k fuel s).2.2,
        op.isServiceOp = false ∧ op.isGet = false ∧ op.isDelete = false)
    ∧ (∀ (α : Type) (obs : σ → α), obs s1 = obs s →
        obs (StartWithCancel api k fuel s).2.1 = obs s) := by
  rw [StartWithCancel_create_err api k image s s1 created err fuel hcfg himg hcreate]
  refine ⟨rfl, ?_, ?_⟩
  · intro op hop
    simp only [List.mem_singleton] at hop
    subst hop
    exact ⟨rfl, rfl, rfl⟩
  · intro α obs h
    exact h

/-- C3 on the in-memory cluster that rejects the pod `Create`: the error comes back, the
`Create` is the only call, and the cluster is unchanged. -/
theorem start_pod_create_error_returns_immediately_witness :
    InMemory.api.NewForConfig k42.Client = none
    ∧ k42.Service.Image = ImageValue.str "selenoid/chrome:latest"
    ∧ StartWithCancel InMemory.api k42 7 InMemory.podCreateDenied
        = (StartResult.failed (KErr.other "quota exceeded"), InMemory.podCreateDenied,
            [Op.podCreate "ns" pod42]) :=
  ⟨rfl, rfl,
    (start_pod_create_error_returns_immediately InMemory.api k42 "selenoid/chrome:latest"
      InMemory.podCreateDenied InMemory.podCreateDenied emptyPod (KErr.other "quota exceeded") 7
      rfl rfl (by decide)).1⟩

/-- C2, the claim as stated fails: on the in-memory cluster that rejects the service
`Create`, `StartWithCancel` creates the pod, leaves the readiness loop, gets the error of the
service `Create` and returns it; no delete was issued and the pod `selenoid-browser-42` is
still on the cluster. -/
theorem service_create_failure_counterexample :
    StartWithCancel InMemory.api k42 1 InMemory.svcCreateDenied
        = (StartResult.failed (KErr.other "forbidden"),
            (InMemory.podCreate "ns" pod42 InMemory.svcCreateDenied).2,
            [Op.podCreate "ns" pod42, Op.sleep 10, Op.svcCreate "ns" service42])
    ∧ (StartWithCancel InMemory.api k42 1 InMemory.svcCreateDenied).2.1.hasPod "ns"
        "selenoid-browser-42" = true
    ∧ (StartWithCancel InMemory.api k42 1 InMemory.svcCreateDenied).2.2.any Op.isDelete
        = false := by
  decide

/-- C2, amended: when the pod was created, passed the readiness loop, and the service
`Create` returns an error, `StartWithCancel` returns that error and no handle; the calls it
issued are the pod `Create` and the service `Create`, no delete among them, and the cluster
is left as the failed service `Create` left it. -/
theorem service_create_failure_returns_error_without_delete {σ : Type} (api : ClusterApi σ)
    (k : Kubernetes) (image : String) (s s1 s2 : σ) (created : Pod) (x : Service) (err : KErr)
    (fuel : Nat)
    (hcfg : api.NewForConfig k.Client = none)
    (himg : k.Service.Image = ImageValue.str image)
    (hcreate : api.PodCreate k.Environment.KubernetesNamespace
        (buildPod (objectName k) (requestLabel k) image k.Service.Path) s = ((created, none), s1))
    (hall : created.Status.ContainerStatuses.all (fun st => st.Ready) = true)
    (hsvc : api.SvcCreate k.Environment.KubernetesNamespace
        (buildService (objectName k) (requestLabel k)) s1 = ((x, some err), s2)) :
    StartWithCancel api k (fuel + 1) s
        = (StartResult.failed err, s2,
            [Op.podCreate k.Environment.KubernetesNamespace
                (buildPod (objectName k) (requestLabel k) image k.Service.Path),
              Op.sleep 10,
              Op.svcCreate k.Environment.KubernetesNamespace
                (buildService (objectName k) (requestLabel k))])
    ∧ (StartWithCancel api k (fuel + 1) s).2.2.any Op.isDelete = false := by
  rw [StartWithCancel_ready api k image s s1 created fuel hcfg himg hcreate hall,
    afterReady_create_err api k s1 s2 _ x err hsvc]
  exact ⟨rfl, rfl⟩

/-- C2, amended, on the in-memory cluster that rejects the service `Create`. -/
theorem service_create_failure_returns_error_without_delete_witness :
    InMemory.api.NewForConfig k42.Client = none
    ∧ (StartWithCancel InMemory.api k42 3 InMemory.svcCreateDenied).1
        = StartResult.failed (KErr.other "forbidden")
    ∧ (StartWithCancel InMemory.api k42 3 InMemory.svcCreateDenied).2.2.any Op.isDelete
        = false :=
  ⟨rfl,
    congrArg Prod.fst
      (service_create_failure_returns_error_without_delete InMemory.api k42
        "selenoid/chrome:latest" InMemory.svcCreateDenied
        (InMemory.podCreate "ns" pod42 InMemory.svcCreateDenied).2
        (InMemory.podCreate "ns" pod42 InMemory.svcCreateDenied).2
        (InMemory.podCreate "ns" pod42 InMemory.svcCreateDenied).1.1 emptyService
        (KErr.other "forbidden") 2 rfl rfl (by decide) (by decide) (by decide)).1,
    (service_create_failure_returns_error_without_delete InMemory.api k42
        "selenoid/chrome:latest" InMemory.svcCreateDenied
        (InMemory.podCreate "ns" pod42 InMemory.svcCreateDenied).2
        (InMemory.podCreate "ns" pod42 InMemory.svcCreateDenied).2
        (InMemory.podCreate "ns" pod42 InMemory.svcCreateDenied).1.1 emptyService
        (KErr.other "forbidden") 2 rfl rfl (by decide) (by decide) (by decide)).2⟩

/-! ## `StartWithCancel`: the readiness loop and the success path -/

/-- A run of `StartWithCancel` that returns a handle: the image is a string, the handle is
assembled from the two objects fetched again, and the calls are pod `Create`, one sleep,
service `Create`, pod `Get`, service `Get`. -/
theorem StartWithCancel_started {σ : Type} (api : ClusterApi σ) (k : Kubernetes) (fuel : Nat)
    (s : σ) (h : StartedService)
    (hres : (StartWithCancel api k fuel s).1 = StartResult.started h) :
    ∃ image p y, k.Service.Image = ImageValue.str image
      ∧ h = assemble k (objectName k) p y
      ∧ (StartWithCancel api k fuel s).2.2
          = [Op.podCreate k.Environment.KubernetesNamespace
                (buildPod (objectName k) (requestLabel k) image k.Service.Path),
              Op.sleep 10,
              Op.svcCreate k.Environment.KubernetesNamespace
                (buildService (objectName k) (requestLabel k)),
              Op.podGet k.Environment.KubernetesNamespace (objectName k),
              Op.svcGet k.Environment.KubernetesNamespace (objectName k)] := by
  cases hcfg : api.NewForConfig k.Client with
  | some err => simp [StartWithCancel, hcfg] at hres
  | none =>
    cases himg : k.Service.Image with
    | nonString => simp [StartWithCancel, hcfg, himg] at hres
    | str image =>
      rcases hcreate : api.PodCreate k.Environment.KubernetesNamespace
        (buildPod (objectName k) (requestLabel k) image k.Service.Path) s with ⟨⟨created, e⟩, s1⟩
      cases e with
      | some err =>
        rw [StartWithCancel_create_err api k image s s1 created err fuel hcfg himg hcreate] at hres
        simp at hres
      | none =>
        cases hall : created.Status.ContainerStatuses.all (fun st => st.Ready) with
        | false =>
          rw [StartWithCancel_stuck api k image s s1 created fuel hcfg himg hcreate hall] at hres
          simp at hres
        | true =>
          cases fuel with
          | zero => simp [StartWithCancel, hcfg, himg, hcreate, readinessLoop] at hres
          | succ n =>
            rw [StartWithCancel_ready api k image s s1 created n hcfg himg hcreate hall] at hres ⊢
            rcases afterReady_cases api k s1
              [Op.podCreate k.Environment.KubernetesNamespace
                (buildPod (objectName k) (requestLabel k) image k.Service.Path), Op.sleep 10]
              with ⟨e, s2, hh⟩ | ⟨e, s2, hh⟩ | ⟨p, y, s2, hh⟩
            · rw [hh] at hres
              simp at hres
            · rw [hh] at hres
              simp at hres
            · rw [hh] at hres ⊢
              simp only [StartResult.started.injEq] at hres
              exact ⟨image, p, y, rfl, hres.symm, rfl⟩

/-- Every entry of the trace of `StartWithCancel` is the `Create` of the pod definition, a
sleep of ten seconds, the `Create` of the service definition, or one of the two `Get`s. -/
theorem StartWithCancel_trace {σ : Type} (api : ClusterApi σ) (k : Kubernetes) (fuel : Nat)
    (s : σ) (op : Op) (hop : op ∈ (StartWithCancel api k fuel s).2.2) :
    (∃ image, op = Op.podCreate k.Environment.KubernetesNamespace
        (buildPod (objectName k) (requestLabel k) image k.Service.Path))
    ∨ op = Op.sleep 10
    ∨ op = Op.svcCreate k.Environment.KubernetesNamespace
        (buildService (objectName k) (requestLabel k))
    ∨ op = Op.podGet k.Environment.KubernetesNamespace (objectName k)
    ∨ op = Op.svcGet k.Environment.KubernetesNamespace (objectName k) := by
  cases hcfg : api.NewForConfig k.Client with
  | some err => simp [StartWithCancel, hcfg] at hop
  | none =>
    cases himg : k.Service.Image with
    | nonString => simp [StartWithCancel, hcfg, himg] at hop
    | str image =>
      rcases hcreate : api.PodCreate k.Environment.KubernetesNamespace
        (buildPod (objectName k) (requestLabel k) image k.Service.Path) s with ⟨⟨created, e⟩, s1⟩
      cases e with
      | some err =>
        rw [StartWithCancel_create_err api k image s s1 created err fuel hcfg himg hcreate] at hop
        simp only [List.mem_singleton] at hop
        exact Or.inl ⟨image, hop⟩
      | none =>
        cases hall : created.Status.ContainerStatuses.all (fun st => st.Ready) with
        | false =>
          rw [StartWithCancel_stuck api k image s s1 created fuel hcfg himg hcreate hall] at hop
          simp only [List.mem_cons, List.mem_replicate] at hop
          rcases hop with hop | hop
          · exact Or.inl ⟨image, hop⟩
          · exact Or.inr (Or.inl hop.2)
        | true =>
          cases fuel with
          | zero =>
            simp only [StartWithCancel, hcfg, himg, hcreate, readinessLoop,
              List.mem_singleton] at hop
            exact Or.inl ⟨image, hop⟩
          | succ n =>
            rw [StartWithCancel_ready api k image s s1 created n hcfg himg hcreate hall] at hop
            rcases afterReady_cases api k s1
              [Op.podCreate k.Environment.KubernetesNamespace
                (buildPod (objectName k) (requestLabel k) image k.Service.Path), Op.sleep 10]
              with ⟨e, s2, hh⟩ | ⟨e, s2, hh⟩ | ⟨p, y, s2, hh⟩
            · rw [hh] at hop
              simp only [List.cons_append, List.nil_append, List.mem_cons, List.mem_singleton,
                List.not_mem_nil, or_false] at hop
              rcases hop with hop | hop | hop
              · exact Or.inl ⟨image, hop⟩
              · exact Or.inr (Or.inl hop)
              · exact Or.inr (Or.inr (Or.inl hop))
            · rw [hh] at hop
              simp only [List.cons_append, List.nil_append, List.mem_cons, List.mem_singleton,
                List.not_mem_nil, or_false] at hop
              rcases hop with hop | hop | hop | hop | hop
              · exact Or.inl ⟨image, hop⟩
              · exact Or.inr (Or.inl hop)
              · exact Or.inr (Or.inr (Or.inl hop))
              · exact Or.inr (Or.inr (Or.inr (Or.inl hop)))
              · exact Or.inr (Or.inr (Or.inr (Or.inr hop)))
            · rw [hh] at hop
              simp only [List.cons_append, List.nil_append, List.mem_cons, List.mem_singleton,
                List.not_mem_nil, or_false] at hop
              rcases hop with hop | hop | hop | hop | hop
              · exact Or.inl ⟨image, hop⟩
              · exact Or.inr (Or.inl hop)
              · exact Or.inr (Or.inr (Or.inl hop))
              · exact Or.inr (Or.inr (Or.inr (Or.inl hop)))
              · exact Or.inr (Or.inr (Or.inr (Or.inr hop)))

/-- C10: once the pod was created, the readiness loop looks only at the container statuses
of the pod the `Create` call returned. The call gets past the loop for some fuel if and only
if every one of these statuses is ready (so also when there is none); in that case the loop
is left after exactly one iteration, one sleep of ten seconds, and nothing was fetched in
between; otherwise the call never gets past the loop, whatever the fuel and whatever the
cluster API would report later: all it does after the `Create` is sleep. -/
theorem readiness_loop_reads_create_response_only {σ : Type} (api : ClusterApi σ)
    (k : Kubernetes) (image : String) (s s1 : σ) (created : Pod)
    (hcfg : api.NewForConfig k.Client = none)
    (himg : k.Service.Image = ImageValue.str image)
    (hcreate : api.PodCreate k.Environment.KubernetesNamespace
        (buildPod (objectName k) (requestLabel k) image k.Service.Path) s
          = ((created, none), s1)) :
    ((∃ fuel, (StartWithCancel api k fuel s).1 ≠ StartResult.diverged)
        ↔ created.Status.ContainerStatuses.all (fun st => st.Ready) = true)
    ∧ (created.Status.ContainerStatuses.all (fun st => st.Ready) = true →
        ∀ fuel tr, readinessLoop (fuel + 1) false created tr = (true, tr ++ [Op.sleep 10]))
    ∧ (created.Status.ContainerStatuses.all (fun st => st.Ready) = true →
        ∀ fuel, StartWithCancel api k (fuel + 1) s
          = afterReady api k s1
              [Op.podCreate k.Environment.KubernetesNamespace
                  (buildPod (objectName k) (requestLabel k) image k.Service.Path),
                Op.sleep 10])
    ∧ (created.Status.ContainerStatuses = [] →
        ∀ fuel, (StartWithCancel api k (fuel + 1) s).1 ≠ StartResult.diverged)
    ∧ (created.Status.ContainerStatuses.all (fun st => st.Ready) = false →
        ∀ fuel, StartWithCancel api k fuel s
          = (StartResult.diverged, s1,
              Op.podCreate k.Environment.KubernetesNamespace
                  (buildPod (objectName k) (requestLabel k) image k.Service.Path)
                :: List.replicate fuel (Op.sleep 10))) := by
  refine ⟨⟨?_, ?_⟩, ?_, ?_, ?_, ?_⟩
  · rintro ⟨fuel, hne⟩
    cases hall : created.Status.ContainerStatuses.all (fun st => st.Ready) with
    | true => rfl
    | false =>
      rw [StartWithCancel_stuck api k image s s1 created fuel hcfg himg hcreate hall] at hne
      exact absurd rfl hne
  · intro hall
    refine ⟨1, ?_⟩
    rw [StartWithCancel_ready api k image s s1 created 0 hcfg himg hcreate hall]
    exact (afterReady_fst api k s1 _).1
  · intro hall fuel tr
    exact readinessLoop_ready fuel created tr hall
  · intro hall fuel
    exact StartWithCancel_ready api k image s s1 created fuel hcfg himg hcreate hall
  · intro hnil fuel
    have hall : created.Status.ContainerStatuses.all (fun st => st.Ready) = true := by
      rw [hnil]
      rfl
    rw [StartWithCancel_ready api k image s s1 created fuel hcfg himg hcreate hall]
    exact (afterReady_fst api k s1 _).1
  · intro hall fuel
    exact StartWithCancel_stuck api k image s s1 created fuel hcfg himg hcreate hall

/-- C10 on the in-memory cluster whose first status report says "not ready": with fuel for
five iterations the call is still in the loop, after the `Create` and five sleeps. -/
theorem readiness_loop_reads_create_response_only_witness :
    InMemory.api.NewForConfig k42.Client = none
    ∧ StartWithCancel InMemory.api k42 5 InMemory.notReadyOnce
        = (StartResult.diverged, (InMemory.podCreate "ns" pod42 InMemory.notReadyOnce).2,
            [Op.podCreate "ns" pod42, Op.sleep 10, Op.sleep 10, Op.sleep 10, Op.sleep 10,
              Op.sleep 10]) :=
  ⟨rfl,
    (readiness_loop_reads_create_response_only InMemory.api k42 "selenoid/chrome:latest"
      InMemory.notReadyOnce (InMemory.podCreate "ns" pod42 InMemory.notReadyOnce).2
      (InMemory.podCreate "ns" pod42 InMemory.notReadyOnce).1.1 rfl rfl
      (by decide)).2.2.2.2 (by decide) 5⟩

/-- C4, evaluated where the code departs from it. (i) On the in-memory cluster whose first
status report lists the container as not ready and whose later ones list it as ready, the
pod the `Create` call returns lists its container as not ready, a `Get` of the pod right
after would list it as ready, and yet `StartWithCancel` never gets past the readiness loop
and never issues a `Get`, whatever the fuel. (ii) On the in-memory cluster whose first three
status reports list no container, the pod being not ready yet, `StartWithCancel` creates the
service and returns a handle after one sleep, when no report has yet said "ready". -/
theorem readiness_poll_never_fetches_status :
    (InMemory.podCreate "ns" pod42 InMemory.notReadyOnce).1.1.Status.ContainerStatuses
        = [{ Ready := false }]
    ∧ (InMemory.podGet "ns" name42
          (InMemory.podCreate "ns" pod42 InMemory.notReadyOnce).2).1.1.Status.ContainerStatuses
        = [{ Ready := true }]
    ∧ (InMemory.podGet "ns" name42
          (InMemory.podCreate "ns" pod42 InMemory.notReadyOnce).2).1.2 = none
    ∧ (¬ ∃ fuel,
        (StartWithCancel InMemory.api k42 fuel InMemory.notReadyOnce).1 ≠ StartResult.diverged
        ∨ (StartWithCancel InMemory.api k42 fuel InMemory.notReadyOnce).2.2.any Op.isGet
            = true)
    ∧ (InMemory.podCreate "ns" pod42 InMemory.pendingUnlisted).1.1.Status.ContainerStatuses = []
    ∧ (StartWithCancel InMemory.api k42 1 InMemory.pendingUnlisted).1
        = StartResult.started handle42
    ∧ (StartWithCancel InMemory.api k42 1 InMemory.pendingUnlisted).2.2
        = [Op.podCreate "ns" pod42, Op.sleep 10, Op.svcCreate "ns" service42,
            Op.podGet "ns" name42, Op.svcGet "ns" name42]
    ∧ (StartWithCancel InMemory.api k42 1 InMemory.pendingUnlisted).2.1.notReadyReports
        = 1 := by
  refine ⟨by decide, by decide, by decide, ?_, by decide, by decide, by decide, by decide⟩
  rintro ⟨fuel, h⟩
  rw [StartWithCancel_stuck InMemory.api k42 "selenoid/chrome:latest" InMemory.notReadyOnce
    (InMemory.podCreate "ns" pod42 InMemory.notReadyOnce).2
    (InMemory.podCreate "ns" pod42 InMemory.notReadyOnce).1.1 fuel rfl rfl (by decide)
    (by decide)] at h
  rcases h with h | h
  · exact h rfl
  · simp [Op.isGet] at h

/-- C5, evaluated where the code departs from it: on the in-memory cluster on which every
pod `Get` fails, the pod `Get` issued after the service `Create` returns an error, the
service `Get` succeeds, and `StartWithCancel` returns a handle and no error; the handle
carries the empty ID and the empty pod name of the zero-valued pod. -/
theorem pod_get_error_is_overwritten :
    (InMemory.podGet "ns" name42
        (InMemory.svcCreate "ns" service42
          (InMemory.podCreate "ns" pod42 InMemory.podGetFailing).2).2).1
      = (emptyPod, some (KErr.other "etcd timeout"))
    ∧ (InMemory.svcGet "ns" name42
        (InMemory.svcCreate "ns" service42
          (InMemory.podCreate "ns" pod42 InMemory.podGetFailing).2).2).1.2 = none
    ∧ (StartWithCancel InMemory.api k42 1 InMemory.podGetFailing).1
      = StartResult.started
          { Url := { Scheme := "http",
                     Host := "selenoid-browser-42.selenoid.svc.cluster.local:4444",
                     Path := "/wd/hub" },
            Origin := "selenoid-browser-42.selenoid.svc.cluster.local:4444",
            Container := { ID := "", IPAddress := "10.96.0.10", Ports := [("4444", "4444")] },
            HostPort := { Selenium := "selenoid-browser-42.selenoid.svc.cluster.local:4444" },
            CancelPodName := "",
            CancelServiceName := "selenoid-browser-42" }
    ∧ (StartWithCancel InMemory.api k42 1 InMemory.podGetFailing).2.2
      = [Op.podCreate "ns" pod42, Op.sleep 10, Op.svcCreate "ns" service42,
          Op.podGet "ns" name42, Op.svcGet "ns" name42] := by
  decide

/-- C7, evaluated where the code departs from it: for request 42 with the configured
namespace `ns`, the service is created in namespace `ns`, and the host of `Url`, `Origin` and
`HostPort.Selenium` all name the namespace `selenoid`, not `ns`; the same endpoint comes
back when the configured namespace is `other`. -/
theorem endpoint_host_names_fixed_namespace :
    k42.Environment.KubernetesNamespace = "ns"
    ∧ Op.svcCreate "ns" service42 ∈ (StartWithCancel InMemory.api k42 1 InMemory.empty).2.2
    ∧ (StartWithCancel InMemory.api k42 1 InMemory.empty).2.1.hasService "ns" name42 = true
    ∧ (StartWithCancel InMemory.api k42 1 InMemory.empty).2.1.hasService "selenoid" name42
        = false
    ∧ (∃ h, (StartWithCancel InMemory.api k42 1 InMemory.empty).1 = StartResult.started h
        ∧ h.Url.Host = "selenoid-browser-42.selenoid.svc.cluster.local:4444"
        ∧ h.Origin = "selenoid-browser-42.selenoid.svc.cluster.local:4444"
        ∧ h.HostPort.Selenium = "selenoid-browser-42.selenoid.svc.cluster.local:4444"
        ∧ h.Url.Host ≠ JoinHostPort "selenoid-browser-42.ns.svc.cluster.local" "4444")
    ∧ (∃ h, (StartWithCancel InMemory.api
          { k42 with Environment := { KubernetesNamespace := "other" } } 1 InMemory.empty).1
          = StartResult.started h
        ∧ h.Url.Host = "selenoid-browser-42.selenoid.svc.cluster.local:4444"
        ∧ h.Origin = "selenoid-browser-42.selenoid.svc.cluster.local:4444"
        ∧ h.HostPort.Selenium = "selenoid-browser-42.selenoid.svc.cluster.local:4444") := by
  refine ⟨rfl, by decide, by decide, by decide, ⟨_, rfl, ?_⟩, ⟨_, rfl, ?_⟩⟩
  · decide
  · decide

/-- C6: for every name, label, image and path the pod definition has one container, and the
(name, protocol, number) triples of its ports are those of the service definition, namely
browser/TCP/4444, vnc/TCP/5900, devtools/TCP/7070, fileserver/TCP/8080 and
clipboard/TCP/9090; and every pod and every service that a run of `StartWithCancel` hands
to a `Create` call declares exactly these ports. -/
theorem pod_and_service_declare_same_ports :
    (∀ name reqID image path : String,
      (buildPod name reqID image path).Spec.Containers.map
          (fun c => c.Ports.map (fun p => (p.Name, p.Protocol, p.ContainerPort)))
        = [(buildService name reqID).Spec.Ports.map (fun p => (p.Name, p.Protocol, p.Port))]
      ∧ (buildService name reqID).Spec.Ports.map (fun p => (p.Name, p.Protocol, p.Port))
        = [("browser", "TCP", 4444), ("vnc", "TCP", 5900), ("devtools", "TCP", 7070),
            ("fileserver", "TCP", 8080), ("clipboard", "TCP", 9090)])
    ∧ (∀ (σ : Type) (api : ClusterApi σ) (k : Kubernetes) (fuel : Nat) (s : σ),
        ∀ op ∈ (StartWithCancel api k fuel s).2.2,
          (∀ ns pod, op = Op.podCreate ns pod →
            pod.Spec.Containers.map
                (fun c => c.Ports.map (fun p => (p.Name, p.Protocol, p.ContainerPort)))
              = [[("browser", "TCP", 4444), ("vnc", "TCP", 5900), ("devtools", "TCP", 7070),
                  ("fileserver", "TCP", 8080), ("clipboard", "TCP", 9090)]])
          ∧ (∀ ns svc, op = Op.svcCreate ns svc →
            svc.Spec.Ports.map (fun p => (p.Name, p.Protocol, p.Port))
              = [("browser", "TCP", 4444), ("vnc", "TCP", 5900), ("devtools", "TCP", 7070),
                  ("fileserver", "TCP", 8080), ("clipboard", "TCP", 9090)])) := by
  refine ⟨fun name reqID image path => ⟨rfl, rfl⟩, ?_⟩
  intro σ api k fuel s op hop
  rcases StartWithCancel_trace api k fuel s op hop with ⟨image, h⟩ | h | h | h | h
  · subst h
    refine ⟨?_, ?_⟩
    · intro ns pod heq
      injection heq with _ hpod
      rw [← hpod]
      rfl
    · intro ns svc heq
      cases heq
  all_goals
    subst h
    refine ⟨?_, ?_⟩
    · intro ns pod heq
      first
        | cases heq
    · intro ns svc heq
      first
        | (injection heq with _ hsvc
           rw [← hsvc]
           rfl)
        | cases heq

/-- C6 on the successful run for request 42 on the in-memory cluster: the pod and the service
handed to the two `Create` calls declare the same five ports. -/
theorem pod_and_service_declare_same_ports_witness :
    Op.podCreate "ns" pod42 ∈ (StartWithCancel InMemory.api k42 1 InMemory.empty).2.2
    ∧ Op.svcCreate "ns" service42 ∈ (StartWithCancel InMemory.api k42 1 InMemory.empty).2.2
    ∧ pod42.Spec.Containers.map
          (fun c => c.Ports.map (fun p => (p.Name, p.Protocol, p.ContainerPort)))
        = [service42.Spec.Ports.map (fun p => (p.Name, p.Protocol, p.Port))] :=
  ⟨by decide, by decide,
    (pod_and_service_declare_same_ports.1 name42 "42" "selenoid/chrome:latest" "/wd/hub").1⟩

/-- C8: when `StartWithCancel` returns a handle, the run created a pod such that every key
and every value of the handle's `Container.Ports` is the number of a port that pod's
container declares; the path of the handle's `Url` is `k.Service.Path` and its scheme is
`http`. -/
theorem started_handle_ports_and_path {σ : Type} (api : ClusterApi σ) (k : Kubernetes)
    (fuel : Nat) (s : σ) (h : StartedService)
    (hres : (StartWithCancel api k fuel s).1 = StartResult.started h) :
    (∃ ns pod, Op.podCreate ns pod ∈ (StartWithCancel api k fuel s).2.2
      ∧ ∀ kv ∈ h.Container.Ports,
          (∃ c ∈ pod.Spec.Containers, ∃ p ∈ c.Ports, kv.1 = toString p.ContainerPort)
          ∧ (∃ c ∈ pod.Spec.Containers, ∃ p ∈ c.Ports, kv.2 = toString p.ContainerPort))
    ∧ h.Container.Ports = [("4444", "4444")]
    ∧ h.Url.Path = k.Service.Path
    ∧ h.Url.Scheme = "http" := by
  obtain ⟨image, p, y, _, hh, htr⟩ := StartWithCancel_started api k fuel s h hres
  subst hh
  refine ⟨⟨k.Environment.KubernetesNamespace,
    buildPod (objectName k) (requestLabel k) image k.Service.Path, ?_, ?_⟩, rfl, rfl, rfl⟩
  · rw [htr]
    exact List.mem_cons_self _ _
  · intro kv hkv
    have hkv2 : kv = ("4444", "4444") := by
      simpa [assemble] using hkv
    subst hkv2
    have hmem : ({ Name := "browser", Protocol := "TCP", ContainerPort := 4444 } : ContainerPort)
        ∈ podPorts := List.mem_cons_self _ _
    exact ⟨⟨_, List.mem_cons_self _ _, _, hmem, by decide⟩,
      ⟨_, List.mem_cons_self _ _, _, hmem, by decide⟩⟩

/-- C8 on the successful run for request 42 on the in-memory cluster. -/
theorem started_handle_ports_and_path_witness :
    (StartWithCancel InMemory.api k42 1 InMemory.empty).1 = StartResult.started handle42
    ∧ handle42.Container.Ports = [("4444", "4444")]
    ∧ handle42.Url.Path = k42.Service.Path
    ∧ handle42.Url.Scheme = "http" :=
  ⟨by decide,
    (started_handle_ports_and_path InMemory.api k42 1 InMemory.empty handle42
      (by decide)).2⟩

end Selenoid
